import Mathlib

/-!
Verification of the pika monitoring server core against its specification.

The definitions below are a shallow embedding of the Go source under
`internal/service` (agent_service.go, property_service.go).  Machine integers
(Go `int`, `int64`, `uint64`) are modelled as `Int`; the values involved never
approach 2^63 so overflow is irrelevant.  Go's integer division (`/` on int64,
truncating toward zero) is modelled by `Int.tdiv`.  Numeric payload fields of
type `float64`/`uint64` are only ever copied, never computed on, so they are
carried as `Int` stand-ins.  Fallible database calls are modelled by `Option`
results or explicit success flags.
-/

namespace Pika

/-! ### Query planner (agent_service.go: constants, alignInterval,
calculateBaseInterval, adjustIntervalForMaxPoints, DetermineInterval,
normalizeTimeRange, getMetricsConfig) -/

/-- Constant `defaultMetricsRetentionHours = 24 * 7` from agent_service.go. -/
def defaultMetricsRetentionHours : Int := 24 * 7

/-- Constant `defaultMaxQueryPoints = 720` from agent_service.go. -/
def defaultMaxQueryPoints : Int := 720

/-- The `allowedIntervals` slice from agent_service.go. -/
def allowedIntervals : List Int :=
  [1, 2, 5, 10, 15, 30, 60, 120, 300, 600, 900, 1800, 3600, 7200, 14400]

/-- Loop body of `alignInterval`: return the first candidate `c` with
`interval ≤ c`.  When no candidate matches, Go returns the last element of
`allowedIntervals`, which is 14400; the `[]` case returns that same value
(the last list element also fails the `interval ≤ c` test in that situation,
so the two formulations agree on `allowedIntervals`). -/
def alignIntervalAux (interval : Int) : List Int → Int
  | [] => 14400
  | c :: cs => if interval ≤ c then c else alignIntervalAux interval cs

/-- `alignInterval` from agent_service.go: round an interval up to the
allowed set, capping at the largest allowed value. -/
def alignInterval (interval : Int) : Int :=
  alignIntervalAux interval allowedIntervals

/-- `maxInt` from agent_service.go. -/
def maxInt (a b : Int) : Int := if a > b then a else b

/-- Ceiling division for a nonnegative numerator and positive denominator.
`adjustIntervalForMaxPoints` computes
`math.Ceil((float64(end-start)/1000) / float64(maxPoints))`; over the exact
numbers this is `⌈(end-start) / (1000·maxPoints)⌉`, which is what this
definition computes (the float computation is exact for all realistic
magnitudes; we model the exact value). -/
def ceilDivPos (a b : Int) : Int := (a + b - 1).tdiv b

/-- `calculateBaseInterval` from agent_service.go: the base interval chosen
from the duration table.  `duration` is Go's `(end-start)/1000` on int64,
i.e. truncating division. -/
def calculateBaseInterval (s e : Int) : Int :=
  let duration := (e - s).tdiv 1000
  if duration ≤ 60 then 2
  else if duration ≤ 5 * 60 then 5
  else if duration ≤ 15 * 60 then 15
  else if duration ≤ 30 * 60 then 30
  else if duration ≤ 60 * 60 then 60
  else if duration ≤ 3 * 60 * 60 then 180
  else if duration ≤ 6 * 60 * 60 then 300
  else if duration ≤ 12 * 60 * 60 then 600
  else if duration ≤ 24 * 60 * 60 then 900
  else if duration ≤ 3 * 24 * 60 * 60 then 1800
  else if duration ≤ 7 * 24 * 60 * 60 then 3600
  else if duration ≤ 14 * 24 * 60 * 60 then 7200
  else 14400

/-- `adjustIntervalForMaxPoints` from agent_service.go. -/
def adjustIntervalForMaxPoints (s e interval maxPoints : Int) : Int :=
  let interval := if interval ≤ 0 then 1 else interval
  if maxPoints ≤ 0 then alignInterval interval
  else if e - s ≤ 0 then alignInterval interval
  else alignInterval (maxInt interval (ceilDivPos (e - s) (1000 * maxPoints)))

/-- The interval `DetermineInterval` starts from: the caller-requested value,
or `calculateBaseInterval` when the request is not positive. -/
def requestedOrBase (s e requested : Int) : Int :=
  if requested ≤ 0 then calculateBaseInterval s e else requested

/-- `DetermineInterval` from agent_service.go (the `maxPoints` argument stands
for `cfg.MaxQueryPoints` obtained from `getMetricsConfig`). -/
def DetermineInterval (s e requested maxPoints : Int) : Int :=
  adjustIntervalForMaxPoints s e (requestedOrBase s e requested) maxPoints

/-- `normalizeTimeRange` from agent_service.go; `retentionMs` stands for
`cfg.RetentionHours` hours in milliseconds, `now` for
`time.Now().UnixMilli()`. -/
def normalizeTimeRange (now retentionMs s e : Int) : Int × Int :=
  let boundary := now - retentionMs
  let s := if s < boundary then boundary else s
  let e := if e ≤ s then s + 1000 else e
  (s, e)

/-- `getMetricsConfig` from agent_service.go: returns
`(RetentionHours, MaxQueryPoints)`; a loaded value replaces a default only
when positive. -/
def getMetricsConfig (loadedRetentionHours loadedMaxPoints : Int) : Int × Int :=
  let cfg := (defaultMetricsRetentionHours, defaultMaxQueryPoints)
  let cfg := if loadedRetentionHours > 0 then (loadedRetentionHours, cfg.2) else cfg
  if loadedMaxPoints > 0 then (cfg.1, loadedMaxPoints) else cfg

/-! ### Downsampler (agent_service.go: aggregateMetric, getAggregationStart,
runAggregation).  `progress` models the result of
`metricRepo.GetAggregationProgress` for one `(metricType, bucketSeconds)`
pair: `none` when the lookup errored or no row exists, `some lastBucket`
otherwise.  `fnOk` models whether the aggregation write `fn` succeeded and
`upsertOk` whether `UpsertAggregationProgress` succeeded. -/

/-- `getAggregationStart` from agent_service.go. -/
def getAggregationStart (now retentionMs bucketMs : Int) (progress : Option Int) : Int :=
  match progress with
  | some lastBucket =>
    if lastBucket > 0 then lastBucket + bucketMs
    else ((now - retentionMs).tdiv bucketMs) * bucketMs
  | none => ((now - retentionMs).tdiv bucketMs) * bucketMs

/-- The closed time window one rollup tick aggregates: raw rows with
`timestamp ∈ [start, endMs]`; `endBucket` is the last bucket start inside
the window. -/
structure AggWindow where
  start : Int
  endMs : Int
  endBucket : Int
deriving DecidableEq

/-- `aggregateMetric` from agent_service.go, for one `(metricType,
bucketSeconds)` pair.  Returns the window whose raw rows were aggregated
(`none` when the tick does nothing or the aggregation write failed) and the
stored progress after the tick. -/
def aggregateMetric (now retentionMs bucketSeconds : Int) (progress : Option Int)
    (fnOk upsertOk : Bool) : Option AggWindow × Option Int :=
  let bucketMs := bucketSeconds * 1000
  let start := getAggregationStart now retentionMs bucketMs progress
  let endBucket := ((now - bucketSeconds * 1000).tdiv bucketMs) * bucketMs
  if endBucket ≤ start then (none, progress)
  else if fnOk then
    (some ⟨start, endBucket + bucketMs - 1, endBucket⟩,
      if upsertOk then some endBucket else progress)
  else (none, progress)

/-! ### GetMetrics read path (agent_service.go: GetMetrics) -/

/-- The `aggCapable` map literal from `GetMetrics`: the metric types that
have aggregate tables. -/
def aggCapable (metricType : String) : Bool :=
  metricType == "cpu" || metricType == "memory" || metricType == "disk" ||
  metricType == "network" || metricType == "network_connection" ||
  metricType == "disk_io" || metricType == "gpu" || metricType == "temperature"

/-- The metric types handled by the switch in `GetMetrics`; the default arm
returns no data. -/
def handledMetricTypes : List String :=
  ["cpu", "memory", "disk", "network", "network_connection", "disk_io", "gpu",
    "temperature"]

/-- Abstract database reads backing `GetMetrics`: `agg ty bucketSeconds s e`
models `Get<Kind>MetricsAgg` (`none` models a query error), and
`raw ty interval s e` models the raw-table query `Get<Kind>Metrics` (whose
code is outside the service layer).  The row type `α` is abstract — the
routing logic never inspects rows. -/
structure MetricReads (α : Type) where
  agg : String → Int → Int → Int → Option (List α)
  raw : String → Int → Int → Int → List α

/-- The bucket choice in `GetMetrics`: the pair `(bucketSeconds, useAgg)`. -/
def chooseBucket (metricType : String) (interval : Int) : Int × Bool :=
  if aggCapable metricType then
    if interval ≥ 3600 then (3600, true)
    else if interval ≥ 300 then (300, true)
    else if interval ≥ 60 then (60, true)
    else (0, false)
  else (0, false)

/-- The common body of the eight switch arms of `GetMetrics`: when `useAgg`,
query the chosen aggregate bucket and return its rows if the query succeeded
with a non-empty result; otherwise (error or empty) fall back to the raw
query over the same range. -/
def getMetricsRouted {α : Type} (r : MetricReads α) (metricType : String)
    (s e interval : Int) : List α :=
  if metricType ∈ handledMetricTypes then
    if (chooseBucket metricType interval).2 then
      match r.agg metricType (chooseBucket metricType interval).1 s e with
      | some ms => if ms.length > 0 then ms else r.raw metricType interval s e
      | none => r.raw metricType interval s e
    else r.raw metricType interval s e
  else []

/-- `GetMetrics` from agent_service.go: normalize the range, determine the
effective interval, then route. -/
def GetMetrics {α : Type} (r : MetricReads α) (now retentionMs maxPoints : Int)
    (metricType : String) (s e requested : Int) : List α :=
  getMetricsRouted r metricType
    (normalizeTimeRange now retentionMs s e).1
    (normalizeTimeRange now retentionMs s e).2
    (DetermineInterval (normalizeTimeRange now retentionMs s e).1
      (normalizeTimeRange now retentionMs s e).2 requested maxPoints)

/-! ### Agent registration (agent_service.go: RegisterAgent) -/

/-- The fields of `protocol.AgentInfo` consumed by `RegisterAgent`. -/
structure AgentInfo where
  id : String
  name : String
  hostname : String
  os : String
  arch : String
  version : String
deriving DecidableEq

/-- The fields of `models.Agent` that `RegisterAgent` reads or writes (the
model struct itself lives outside the service layer; this field set is the
one agent_service.go uses). -/
structure Agent where
  id : String
  name : String
  hostname : String
  ip : String
  os : String
  arch : String
  version : String
  status : Int
  lastSeenAt : Int
  createdAt : Int
  updatedAt : Int
deriving DecidableEq

/-- The agents table keyed by the primary key `id`: `AgentRepo.FindById` is
a lookup, `UpdateById` and `Create` store at the key. -/
def AgentDB := String → Option Agent

/-- `RegisterAgent` from agent_service.go.  `validKey` models the outcome of
`apiKeyService.ValidateApiKey`; `none` models the error returns (invalid
key, empty agent ID).  On an existing row the code assigns `Hostname, IP,
OS, Arch, Version, Status := 1, LastSeenAt, UpdatedAt` — and neither `Name`
nor `CreatedAt` — then saves the row with `UpdateById`; on a missing row it
creates a fresh one with every field from the message. -/
def RegisterAgent (db : AgentDB) (validKey : Bool) (ip : String)
    (info : AgentInfo) (now : Int) : Option (Agent × AgentDB) :=
  if !validKey then none
  else if info.id = "" then none
  else
    match db info.id with
    | some existing =>
      let updated : Agent :=
        { existing with
          hostname := info.hostname
          ip := ip
          os := info.os
          arch := info.arch
          version := info.version
          status := 1
          lastSeenAt := now
          updatedAt := now }
      some (updated, fun k => if k = info.id then some updated else db k)
    | none =>
      let agent : Agent :=
        { id := info.id
          name := info.name
          hostname := info.hostname
          ip := ip
          os := info.os
          arch := info.arch
          version := info.version
          status := 1
          lastSeenAt := now
          createdAt := now
          updatedAt := now }
      some (agent, fun k => if k = info.id then some agent else db k)

/-! ### Metric ingestion (agent_service.go: HandleMetricData).  The
`protocol.*Data` payload structures and `models.*Metric` rows are mirrored
with the fields HandleMetricData copies; numeric payload values are carried
opaquely as `Int`. -/

/-- `protocol.CPUData`. -/
structure CPUData where
  usagePercent : Int
  logicalCores : Int
  physicalCores : Int
  modelName : String
deriving DecidableEq

/-- `protocol.MemoryData`. -/
structure MemoryData where
  total : Int
  used : Int
  free : Int
  usagePercent : Int
  swapTotal : Int
  swapUsed : Int
  swapFree : Int
deriving DecidableEq

/-- `protocol.DiskData` (one element per mount point). -/
structure DiskData where
  mountPoint : String
  total : Int
  used : Int
  free : Int
  usagePercent : Int
deriving DecidableEq

/-- `protocol.NetworkData` (one element per interface). -/
structure NetworkData where
  interface : String
  bytesSentRate : Int
  bytesRecvRate : Int
  bytesSentTotal : Int
  bytesRecvTotal : Int
deriving DecidableEq

/-- `protocol.NetworkConnectionData`. -/
structure NetworkConnectionData where
  established : Int
  synSent : Int
  synRecv : Int
  finWait1 : Int
  finWait2 : Int
  timeWait : Int
  close : Int
  closeWait : Int
  lastAck : Int
  listen : Int
  closing : Int
  total : Int
deriving DecidableEq

/-- `protocol.DiskIOData` (one element per device). -/
structure DiskIOData where
  device : String
  readCount : Int
  writeCount : Int
  readBytes : Int
  writeBytes : Int
  readBytesRate : Int
  writeBytesRate : Int
  readTime : Int
  writeTime : Int
  ioTime : Int
  iopsInProgress : Int
deriving DecidableEq

/-- `protocol.HostInfoData`. -/
structure HostInfoData where
  os : String
  platform : String
  platformVersion : String
  kernelVersion : String
  kernelArch : String
  uptime : Int
  bootTime : Int
  procs : Int
deriving DecidableEq

/-- `protocol.GPUData` (one element per GPU). -/
structure GPUData where
  index : Int
  name : String
  utilization : Int
  memoryTotal : Int
  memoryUsed : Int
  memoryFree : Int
  temperature : Int
  powerUsage : Int
  fanSpeed : Int
deriving DecidableEq

/-- `protocol.TemperatureData` (one element per sensor). -/
structure TemperatureData where
  sensorKey : String
  temperature : Int
deriving DecidableEq

/-- `protocol.MonitorData` (one element per synthetic-monitor result);
`checkedAt` is the probe-side check time. -/
structure MonitorData where
  id : String
  type : String
  target : String
  status : String
  statusCode : Int
  responseTime : Int
  error : String
  message : String
  contentMatch : String
  certExpiryTime : Int
  certDaysLeft : Int
  checkedAt : Int
deriving DecidableEq

/-- A raw row written by `HandleMetricData`, tagged by kind.  Each variant
carries the row fields the Go code assigns (`agentID` and `timestamp`
inlined; remaining payload fields as in the `models.*Metric` structs). -/
inductive MetricRow where
  | cpu (agentID : String) (d : CPUData) (timestamp : Int)
  | memory (agentID : String) (d : MemoryData) (timestamp : Int)
  | disk (agentID : String) (d : DiskData) (timestamp : Int)
  | network (agentID : String) (d : NetworkData) (timestamp : Int)
  | networkConnection (agentID : String) (d : NetworkConnectionData) (timestamp : Int)
  | diskIo (agentID : String) (d : DiskIOData) (timestamp : Int)
  | host (agentID : String) (d : HostInfoData) (timestamp : Int)
  | gpu (agentID : String) (d : GPUData) (timestamp : Int)
  | temperature (agentID : String) (d : TemperatureData) (timestamp : Int)
  | monitor (agentID : String) (d : MonitorData) (timestamp : Int)
deriving DecidableEq

/-- The timestamp column of a row. -/
def rowTimestamp : MetricRow → Int
  | .cpu _ _ t => t
  | .memory _ _ t => t
  | .disk _ _ t => t
  | .network _ _ t => t
  | .networkConnection _ _ t => t
  | .diskIo _ _ t => t
  | .host _ _ t => t
  | .gpu _ _ t => t
  | .temperature _ _ t => t
  | .monitor _ _ t => t

/-- Whether a row is a synthetic-monitor row. -/
def rowIsMonitor : MetricRow → Bool
  | .monitor _ _ _ => true
  | _ => false

/-- A decoded `metric` frame, by kind (the array kinds carry one payload
element per partition).  JSON decoding happens before this point; a frame
that fails to decode is a frame error and writes nothing. -/
inductive MetricData where
  | cpu (d : CPUData)
  | memory (d : MemoryData)
  | disk (ds : List DiskData)
  | network (ds : List NetworkData)
  | networkConnection (d : NetworkConnectionData)
  | diskIo (ds : List DiskIOData)
  | host (d : HostInfoData)
  | gpu (ds : List GPUData)
  | temperature (ds : List TemperatureData)
  | monitor (ds : List MonitorData)
  | unknownKind
deriving DecidableEq

/-- The monitor elements of a frame (empty for every other kind). -/
def monitorElems : MetricData → List MonitorData
  | .monitor ds => ds
  | _ => []

/-- The per-element save loop of the array kinds: a failed
`metricRepo.Save…Metric` call is logged and skipped, the loop continues with
the remaining elements. -/
def saveLoop (saveOk : MetricRow → Bool) : List MetricRow → List MetricRow
  | [] => []
  | r :: rs => if saveOk r then r :: saveLoop saveOk rs else saveLoop saveOk rs

/-- `HandleMetricData` from agent_service.go, after JSON decoding.  `saveOk`
models which `metricRepo.Save…Metric` calls succeed.  Returns the rows that
were persisted and whether the function returned a nil error: scalar kinds
return the save error; array kinds always return nil and skip failed
elements; an unknown kind logs and returns nil. -/
def HandleMetricData (saveOk : MetricRow → Bool) (agentID : String) (now : Int) :
    MetricData → List MetricRow × Bool
  | .cpu d => (saveLoop saveOk [MetricRow.cpu agentID d now],
      saveOk (MetricRow.cpu agentID d now))
  | .memory d => (saveLoop saveOk [MetricRow.memory agentID d now],
      saveOk (MetricRow.memory agentID d now))
  | .disk ds => (saveLoop saveOk (ds.map fun d => MetricRow.disk agentID d now), true)
  | .network ds => (saveLoop saveOk (ds.map fun d => MetricRow.network agentID d now), true)
  | .networkConnection d => (saveLoop saveOk [MetricRow.networkConnection agentID d now],
      saveOk (MetricRow.networkConnection agentID d now))
  | .diskIo ds => (saveLoop saveOk (ds.map fun d => MetricRow.diskIo agentID d now), true)
  | .host d => (saveLoop saveOk [MetricRow.host agentID d now],
      saveOk (MetricRow.host agentID d now))
  | .gpu ds => (saveLoop saveOk (ds.map fun d => MetricRow.gpu agentID d now), true)
  | .temperature ds =>
    (saveLoop saveOk (ds.map fun d => MetricRow.temperature agentID d now), true)
  | .monitor ds =>
    (saveLoop saveOk (ds.map fun d => MetricRow.monitor agentID d d.checkedAt), true)
  | .unknownKind => ([], true)

/-! ### Property store (property_service.go: Get, Set) -/

/-- `models.Property` (field set from part_000 of the source). -/
structure Property where
  id : String
  name : String
  value : String
  createdAt : Int
  updatedAt : Int
deriving DecidableEq

/-- The state of the property service: the `properties` table and the
in-process cache.  Cache-entry expiry is purely time-based and not modelled;
a cached entry is returned whenever present. -/
structure PropState where
  db : String → Option Property
  cache : String → Option Property

/-- `PropertyService.Get`: serve from the cache when present; otherwise read
the table (`none` models `repo.FindById` failing, e.g. record not found) and
fill the cache. -/
def propertyGet (st : PropState) (id : String) : Option Property × PropState :=
  match st.cache id with
  | some p => (some p, st)
  | none =>
    match st.db id with
    | none => (none, st)
    | some p =>
      (some p, { st with cache := fun k => if k = id then some p else st.cache k })

/-- `PropertyService.Set` (success path): marshal the value (`enc` models
`json.Marshal`), save the row (`repo.Save` is an upsert by primary key),
then delete the cache entry so the next read reloads from the table. -/
def propertySet {V : Type} (enc : V → String) (st : PropState) (id name : String)
    (v : V) (now : Int) : PropState :=
  let p : Property :=
    { id := id, name := name, value := enc v, createdAt := now, updatedAt := now }
  { db := fun k => if k = id then some p else st.db k
    cache := fun k => if k = id then none else st.cache k }

/-! ### Public-IP configuration (property_service.go: GetPublicIPConfig,
applyPublicIPConfigDefaults).  The Go function mutates `*config` through a
sequence of guarded assignments; each assignment is one `fix…` step below
and `applyPublicIPConfigDefaults` is their composition in source order. -/

/-- The fields of `models.PublicIPConfig` used by property_service.go. -/
structure PublicIPConfig where
  enabled : Bool
  intervalSeconds : Int
  ipv4Scope : String
  ipv4AgentIDs : List String
  ipv6Scope : String
  ipv6AgentIDs : List String
  ipv4Enabled : Bool
  ipv6Enabled : Bool
  ipv4APIs : List String
  ipv6APIs : List String
deriving DecidableEq

/-- The `defaultPublicIPv4APIs` list from property_service.go. -/
def defaultPublicIPv4APIs : List String :=
  ["https://myip.ipip.net", "https://ddns.oray.com/checkip",
    "https://ip.3322.net", "https://4.ipw.cn", "https://v4.yinghualuo.cn/bejson"]

/-- The `defaultPublicIPv6APIs` list from property_service.go. -/
def defaultPublicIPv6APIs : List String :=
  ["https://speed.neu6.edu.cn/getIP.php", "https://v6.ident.me",
    "https://6.ipw.cn", "https://v6.yinghualuo.cn/bejson"]

/-- Step 1: `if config.IntervalSeconds <= 0 { config.IntervalSeconds = 300 }`. -/
def fixIntervalSeconds (c : PublicIPConfig) : PublicIPConfig :=
  if c.intervalSeconds ≤ 0 then { c with intervalSeconds := 300 } else c

/-- Step 2: `if config.IPv4Scope == "" { config.IPv4Scope = "all" }`. -/
def fixIPv4ScopeEmpty (c : PublicIPConfig) : PublicIPConfig :=
  if c.ipv4Scope = "" then { c with ipv4Scope := "all" } else c

/-- Step 3: `if config.IPv6Scope == "" { config.IPv6Scope = "all" }`. -/
def fixIPv6ScopeEmpty (c : PublicIPConfig) : PublicIPConfig :=
  if c.ipv6Scope = "" then { c with ipv6Scope := "all" } else c

/-- Step 4: `if config.IPv4Scope != "all" && config.IPv4Scope != "custom"
{ config.IPv4Scope = "all" }`. -/
def fixIPv4ScopeInvalid (c : PublicIPConfig) : PublicIPConfig :=
  if c.ipv4Scope ≠ "all" ∧ c.ipv4Scope ≠ "custom" then { c with ipv4Scope := "all" } else c

/-- Step 5: `if config.IPv6Scope != "all" && config.IPv6Scope != "custom"
{ config.IPv6Scope = "all" }`. -/
def fixIPv6ScopeInvalid (c : PublicIPConfig) : PublicIPConfig :=
  if c.ipv6Scope ≠ "all" ∧ c.ipv6Scope ≠ "custom" then { c with ipv6Scope := "all" } else c

/-- Step 6: `if len(config.IPv4APIs) == 0 { config.IPv4APIs = defaults }`. -/
def fixIPv4APIs (c : PublicIPConfig) : PublicIPConfig :=
  if c.ipv4APIs.length = 0 then { c with ipv4APIs := defaultPublicIPv4APIs } else c

/-- Step 7: `if len(config.IPv6APIs) == 0 { config.IPv6APIs = defaults }`. -/
def fixIPv6APIs (c : PublicIPConfig) : PublicIPConfig :=
  if c.ipv6APIs.length = 0 then { c with ipv6APIs := defaultPublicIPv6APIs } else c

/-- `applyPublicIPConfigDefaults` from property_service.go: the seven guarded
assignments in source order. -/
def applyPublicIPConfigDefaults (c : PublicIPConfig) : PublicIPConfig :=
  fixIPv6APIs (fixIPv4APIs (fixIPv6ScopeInvalid (fixIPv4ScopeInvalid
    (fixIPv6ScopeEmpty (fixIPv4ScopeEmpty (fixIntervalSeconds c))))))

/-- `GetPublicIPConfig` from property_service.go: when `GetValue` fails the
error is returned (`none`); otherwise the decoded config (zero value
included) is normalized with `applyPublicIPConfigDefaults`. -/
def GetPublicIPConfig (loaded : Option PublicIPConfig) : Option PublicIPConfig :=
  match loaded with
  | none => none
  | some c => some (applyPublicIPConfigDefaults c)

/-! ### Helper lemmas for the planner -/

theorem ite_prop {α : Sort _} (P : α → Prop) {c : Prop} [Decidable c] {a b : α}
    (ha : P a) (hb : P b) : P (if c then a else b) := by
  split
  · exact ha
  · exact hb

theorem normalizeTimeRange_sub_pos (now retentionMs s e : Int) :
    0 < (normalizeTimeRange now retentionMs s e).2 - (normalizeTimeRange now retentionMs s e).1 := by
  simp only [normalizeTimeRange]
  split_ifs <;> omega

theorem calculateBaseInterval_pos (s e : Int) : 2 ≤ calculateBaseInterval s e := by
  unfold calculateBaseInterval
  repeat' apply ite_prop fun x => (2 : Int) ≤ x
  all_goals norm_num

theorem alignIntervalAux_mem_or (x : Int) (l : List Int) :
    alignIntervalAux x l ∈ l ∨ alignIntervalAux x l = 14400 := by
  induction l with
  | nil => right; rfl
  | cons c cs ih =>
    simp only [alignIntervalAux]
    by_cases h : x ≤ c
    · simp [h]
    · rcases ih with h2 | h2
      · simp [h, h2]
      · simp [h, h2]

theorem alignInterval_mem (x : Int) : alignInterval x ∈ allowedIntervals := by
  rcases alignIntervalAux_mem_or x allowedIntervals with h | h
  · exact h
  · rw [alignInterval, h]; simp [allowedIntervals]

theorem le_alignIntervalAux (x : Int) (h : x ≤ 14400) (l : List Int) :
    x ≤ alignIntervalAux x l := by
  induction l with
  | nil => simpa [alignIntervalAux] using h
  | cons c cs ih =>
    simp only [alignIntervalAux]
    by_cases hc : x ≤ c
    · simp [hc]
    · simpa [hc] using ih

theorem le_alignInterval (x : Int) (h : x ≤ 14400) : x ≤ alignInterval x :=
  le_alignIntervalAux x h allowedIntervals

theorem alignIntervalAux_pos (x : Int) (l : List Int) (hl : ∀ c ∈ l, 1 ≤ c) :
    1 ≤ alignIntervalAux x l := by
  induction l with
  | nil => norm_num [alignIntervalAux]
  | cons c cs ih =>
    simp only [alignIntervalAux]
    by_cases hc : x ≤ c
    · simp only [hc, if_true]
      exact hl c (by simp)
    · simp only [hc, if_false]
      exact ih fun d hd => hl d (by simp [hd])

theorem alignInterval_pos (x : Int) : 1 ≤ alignInterval x :=
  alignIntervalAux_pos x allowedIntervals (by decide)

theorem ceilDivPos_le_iff {a b c : Int} (ha : 0 ≤ a) (hb : 0 < b) :
    ceilDivPos a b ≤ c ↔ a ≤ b * c := by
  unfold ceilDivPos
  rw [Int.tdiv_eq_ediv (by omega) (by omega)]
  constructor
  · intro h
    have h2 := Int.lt_ediv_add_one_mul_self (a + b - 1) hb
    nlinarith
  · intro h
    by_contra hc
    push_neg at hc
    have h2 : (c + 1) * b ≤ a + b - 1 := (Int.le_ediv_iff_mul_le hb).mp (by omega)
    nlinarith

/-- Core planner property on an already-normalized range. -/
theorem determineInterval_core (s e requested maxPoints : Int)
    (hse : 0 < e - s) (hmp : 0 < maxPoints)
    (hcap : maxInt (requestedOrBase s e requested)
        (ceilDivPos (e - s) (1000 * maxPoints)) ≤ 14400) :
    DetermineInterval s e requested maxPoints
        = alignInterval (maxInt (requestedOrBase s e requested)
            (ceilDivPos (e - s) (1000 * maxPoints)))
      ∧ ceilDivPos (e - s) (1000 * maxPoints) ≤ DetermineInterval s e requested maxPoints
      ∧ DetermineInterval s e requested maxPoints ∈ allowedIntervals
      ∧ ceilDivPos (e - s) (1000 * DetermineInterval s e requested maxPoints) ≤ maxPoints := by
  have hbase : 0 < requestedOrBase s e requested := by
    unfold requestedOrBase
    split_ifs with h
    · have := calculateBaseInterval_pos s e
      omega
    · omega
  have heq : DetermineInterval s e requested maxPoints
      = alignInterval (maxInt (requestedOrBase s e requested)
          (ceilDivPos (e - s) (1000 * maxPoints))) := by
    unfold DetermineInterval adjustIntervalForMaxPoints
    have h1 : ¬ requestedOrBase s e requested ≤ 0 := by omega
    have h2 : ¬ maxPoints ≤ 0 := by omega
    have h3 : ¬ e - s ≤ 0 := by omega
    simp only [h1, h2, h3, if_false]
  have hreq : ceilDivPos (e - s) (1000 * maxPoints) ≤ DetermineInterval s e requested maxPoints := by
    rw [heq]
    have h1 : ceilDivPos (e - s) (1000 * maxPoints)
        ≤ maxInt (requestedOrBase s e requested) (ceilDivPos (e - s) (1000 * maxPoints)) := by
      unfold maxInt; split_ifs <;> omega
    exact le_trans h1 (le_alignInterval _ hcap)
  refine ⟨heq, hreq, by rw [heq]; exact alignInterval_mem _, ?_⟩
  have hipos : 1 ≤ DetermineInterval s e requested maxPoints := by
    rw [heq]; exact alignInterval_pos _
  have hle : e - s ≤ 1000 * maxPoints * DetermineInterval s e requested maxPoints :=
    (ceilDivPos_le_iff (by omega) (by positivity)).mp hreq
  refine (ceilDivPos_le_iff (by omega) (by positivity)).mpr ?_
  nlinarith

/-- C1 (amended).  For every GetMetrics query, the effective aggregation
interval computed by `DetermineInterval` on the normalized range is the
caller-requested interval (or, when none is supplied, the base interval from
the duration table), raised to at least
`required = ⌈(end − start) / (1000·maxPoints)⌉`, and then rounded up to the
nearest member of the allowed set — provided the raised value does not exceed
the largest allowed interval 14400 (otherwise the code caps the result at
14400, below `required`).  Under that proviso the query covers the range with
at most `maxQueryPoints` interval-wide points. -/
theorem c1_effective_interval_and_points_budget
    (now retentionMs s0 e0 s e requested maxPoints : Int)
    (hnorm : normalizeTimeRange now retentionMs s0 e0 = (s, e))
    (hmp : 0 < maxPoints)
    (hcap : maxInt (requestedOrBase s e requested)
        (ceilDivPos (e - s) (1000 * maxPoints)) ≤ 14400) :
    DetermineInterval s e requested maxPoints
        = alignInterval (maxInt (requestedOrBase s e requested)
            (ceilDivPos (e - s) (1000 * maxPoints)))
      ∧ ceilDivPos (e - s) (1000 * maxPoints) ≤ DetermineInterval s e requested maxPoints
      ∧ DetermineInterval s e requested maxPoints ∈ allowedIntervals
      ∧ ceilDivPos (e - s) (1000 * DetermineInterval s e requested maxPoints) ≤ maxPoints := by
  have hse : 0 < e - s := by
    have h := normalizeTimeRange_sub_pos now retentionMs s0 e0
    rw [hnorm] at h
    exact h
  exact determineInterval_core s e requested maxPoints hse hmp hcap

/-- Witness for C1: a one-hour query under the default configuration
(`maxQueryPoints = 720`, 7-day retention) gets interval 60 and at most 720
points. -/
theorem c1_witness :
    DetermineInterval 1699996400000 1700000000000 0 720
        = alignInterval (maxInt (requestedOrBase 1699996400000 1700000000000 0)
            (ceilDivPos (1700000000000 - 1699996400000) (1000 * 720)))
      ∧ ceilDivPos (1700000000000 - 1699996400000) (1000 * 720)
          ≤ DetermineInterval 1699996400000 1700000000000 0 720
      ∧ DetermineInterval 1699996400000 1700000000000 0 720 ∈ allowedIntervals
      ∧ ceilDivPos (1700000000000 - 1699996400000)
          (1000 * DetermineInterval 1699996400000 1700000000000 0 720) ≤ 720 :=
  c1_effective_interval_and_points_budget 1700000000000 604800000
    1699996400000 1700000000000 1699996400000 1700000000000 0 720
    (by decide) (by decide) (by decide)

/-- Counterexample to C1 as stated: a query whose `end` lies far beyond `now`
(the code clamps `start` to the retention boundary but never clamps `end`)
makes `required = 27778`, which exceeds every member of the allowed set; the
code then returns 14400, which is NOT "at least required", and the number of
interval-wide points (1389) exceeds `maxQueryPoints = 720`. -/
theorem c1_cex :
    normalizeTimeRange 1700000000000 604800000 0 1719395200000
        = (1699395200000, 1719395200000)
      ∧ ceilDivPos (1719395200000 - 1699395200000) (1000 * 720) = 27778
      ∧ DetermineInterval 1699395200000 1719395200000 1 720 = 14400
      ∧ DetermineInterval 1699395200000 1719395200000 1 720
          < ceilDivPos (1719395200000 - 1699395200000) (1000 * 720)
      ∧ defaultMaxQueryPoints
          < ceilDivPos (1719395200000 - 1699395200000)
              (1000 * DetermineInterval 1699395200000 1719395200000 1 720) := by
  refine ⟨by decide, by decide, ?_, ?_, ?_⟩ <;> decide

theorem tdiv_mul_align {a b : Int} (ha : 0 ≤ a) (hb : 0 < b) :
    (a.tdiv b) * b ≤ a ∧ a - (a.tdiv b) * b < b ∧ 0 ≤ (a.tdiv b) * b := by
  rw [Int.tdiv_eq_ediv ha hb.le]
  refine ⟨Int.ediv_mul_le a (by omega), ?_, ?_⟩
  · have h := Int.lt_ediv_add_one_mul_self a hb
    nlinarith
  · have h := Int.ediv_nonneg ha hb.le
    positivity

/-- C2.  For every metric kind and every `bucketSeconds ∈ {60, 300, 3600}`,
one rollup tick aggregates exactly the window computed as:
`start = lastBucket + bucketSeconds·1000` when progress exists (stored
progress is always positive, hypothesis `hpos`), otherwise the retention
boundary aligned down to the bucket width; `endBucket =
⌊(now − bucketSeconds·1000)/bucketMs⌋·bucketMs`; the tick does nothing when
`endBucket ≤ start`; otherwise raw rows with timestamp in
`[start, endBucket + bucketMs − 1]` are aggregated and progress is advanced
to `endBucket`. -/
theorem c2_rollup_window (now retentionMs bucketSeconds start endBucket : Int)
    (progress : Option Int)
    (hb : bucketSeconds = 60 ∨ bucketSeconds = 300 ∨ bucketSeconds = 3600)
    (hret : retentionMs ≤ now)
    (hstart : start = match progress with
      | some lb => lb + bucketSeconds * 1000
      | none => ((now - retentionMs).tdiv (bucketSeconds * 1000)) * (bucketSeconds * 1000))
    (hend : endBucket = ((now - bucketSeconds * 1000).tdiv (bucketSeconds * 1000))
        * (bucketSeconds * 1000))
    (hpos : ∀ lb, progress = some lb → 0 < lb) :
    (endBucket ≤ start →
      aggregateMetric now retentionMs bucketSeconds progress true true = (none, progress))
    ∧ (start < endBucket →
      aggregateMetric now retentionMs bucketSeconds progress true true
        = (some ⟨start, endBucket + bucketSeconds * 1000 - 1, endBucket⟩, some endBucket))
    ∧ (progress = none →
      start ≤ now - retentionMs ∧ now - retentionMs - start < bucketSeconds * 1000) := by
  have hbpos : 0 < bucketSeconds * 1000 := by rcases hb with rfl | rfl | rfl <;> norm_num
  have hstart2 : getAggregationStart now retentionMs (bucketSeconds * 1000) progress = start := by
    cases progress with
    | none => simp [getAggregationStart, hstart]
    | some lb =>
      have h := hpos lb rfl
      simp [getAggregationStart, hstart, h]
  subst hend
  refine ⟨?_, ?_, ?_⟩
  · intro hle
    simp only [aggregateMetric, hstart2]
    rw [if_pos hle]
  · intro hlt
    simp only [aggregateMetric, hstart2]
    rw [if_neg (by omega)]
    simp
  · intro hnone
    subst hnone
    have h := tdiv_mul_align (a := now - retentionMs) (b := bucketSeconds * 1000)
      (by omega) hbpos
    simp only [hstart]
    refine ⟨h.1, ?_⟩
    have h2 := h.2.1
    omega

/-- Witness for C2: a 60-second rollup tick with stored progress 60000 at
`now = 10^9` aggregates `[120000, 999959999]` and advances progress to
999900000. -/
theorem c2_witness :
    (999900000 ≤ (120000 : Int) →
      aggregateMetric 1000000000 0 60 (some 60000) true true = (none, some 60000))
    ∧ ((120000 : Int) < 999900000 →
      aggregateMetric 1000000000 0 60 (some 60000) true true
        = (some ⟨120000, 999900000 + 60 * 1000 - 1, 999900000⟩, some 999900000))
    ∧ ((some 60000 : Option Int) = none →
      (120000 : Int) ≤ 1000000000 - 0 ∧ (1000000000 : Int) - 0 - 120000 < 60 * 1000) :=
  c2_rollup_window 1000000000 0 60 120000 999900000 (some 60000)
    (by norm_num) (by norm_num) (by decide) (by decide)
    (by intro lb h; injection h with h2; omega)

/-- C3.  Aggregation progress is monotonic: whenever a rollup tick stores a
new `lastBucket` it is strictly greater than the previously stored one, and
progress is advanced only when the aggregation write succeeded — a failed
aggregation leaves progress unchanged. -/
theorem c3_progress_monotonic (now retentionMs bucketSeconds lb : Int)
    (fnOk upsertOk : Bool)
    (hb : 0 < bucketSeconds) (hret : retentionMs ≤ now) :
    (∀ nb, (aggregateMetric now retentionMs bucketSeconds (some lb) fnOk upsertOk).2 = some nb →
      nb ≠ lb → lb < nb)
    ∧ (fnOk = false →
      (aggregateMetric now retentionMs bucketSeconds (some lb) fnOk upsertOk).2 = some lb) := by
  have hbpos : 0 < bucketSeconds * 1000 := by positivity
  constructor
  · intro nb hnb hne
    by_cases hpos : lb > 0
    · simp only [aggregateMetric, getAggregationStart, hpos, if_true] at hnb
      split at hnb
      · injection hnb with h2
        omega
      · split at hnb
        · split at hnb
          · injection hnb with h2
            rename_i hgt _ _
            omega
          · injection hnb with h2
            omega
        · injection hnb with h2
          omega
    · have hal := tdiv_mul_align (a := now - retentionMs) (b := bucketSeconds * 1000)
        (by omega) hbpos
      simp only [aggregateMetric, getAggregationStart, hpos, if_false] at hnb
      split at hnb
      · injection hnb with h2
        omega
      · split at hnb
        · split at hnb
          · injection hnb with h2
            rename_i hgt _ _
            omega
          · injection hnb with h2
            omega
        · injection hnb with h2
          omega
  · intro hfn
    subst hfn
    simp only [aggregateMetric]
    split
    · rfl
    · rfl

/-- Witness for C3: the stored progress strictly increases on a successful
tick, and a failed aggregation write leaves it unchanged. -/
theorem c3_witness :
    ((aggregateMetric 1000000000 0 60 (some 60000) true true).2 = some 999900000
      ∧ (60000 : Int) < 999900000)
    ∧ (aggregateMetric 1000000000 0 60 (some 60000) false true).2 = some 60000 :=
  ⟨⟨by decide,
    (c3_progress_monotonic 1000000000 0 60 60000 true true (by norm_num) (by norm_num)).1
      999900000 (by decide) (by decide)⟩,
    (c3_progress_monotonic 1000000000 0 60 60000 false true (by norm_num) (by norm_num)).2 rfl⟩

theorem aggCapable_of_handled {ty : String} (hty : ty ∈ handledMetricTypes) :
    aggCapable ty = true := by
  fin_cases hty <;> decide

/-- C4.  `GetMetrics` routes by the effective interval: an interval ≥ 3600
reads the 3600-second aggregate bucket, ≥ 300 the 300-second bucket, ≥ 60
the 60-second bucket, and any smaller interval reads raw rows; and whenever
the chosen aggregate table returns an empty result for the range, the query
falls back to the raw rows for the same range.  (`GetMetrics` invokes
`getMetricsRouted` with the normalized range and the effective interval,
stated as the last conjunct.) -/
theorem c4_interval_routing {α : Type} (r : MetricReads α) (ty : String)
    (s e i now retentionMs maxPoints s0 e0 requested : Int)
    (hty : ty ∈ handledMetricTypes) :
    (3600 ≤ i → getMetricsRouted r ty s e i
        = match r.agg ty 3600 s e with
          | some ms => if ms.length > 0 then ms else r.raw ty i s e
          | none => r.raw ty i s e)
    ∧ (300 ≤ i → i < 3600 → getMetricsRouted r ty s e i
        = match r.agg ty 300 s e with
          | some ms => if ms.length > 0 then ms else r.raw ty i s e
          | none => r.raw ty i s e)
    ∧ (60 ≤ i → i < 300 → getMetricsRouted r ty s e i
        = match r.agg ty 60 s e with
          | some ms => if ms.length > 0 then ms else r.raw ty i s e
          | none => r.raw ty i s e)
    ∧ (i < 60 → getMetricsRouted r ty s e i = r.raw ty i s e)
    ∧ (∀ b, chooseBucket ty i = (b, true) → r.agg ty b s e = some [] →
        getMetricsRouted r ty s e i = r.raw ty i s e)
    ∧ GetMetrics r now retentionMs maxPoints ty s0 e0 requested
        = getMetricsRouted r ty
            (normalizeTimeRange now retentionMs s0 e0).1
            (normalizeTimeRange now retentionMs s0 e0).2
            (DetermineInterval (normalizeTimeRange now retentionMs s0 e0).1
              (normalizeTimeRange now retentionMs s0 e0).2 requested maxPoints) := by
  have hagg := aggCapable_of_handled hty
  refine ⟨?_, ?_, ?_, ?_, ?_, rfl⟩
  · intro h1
    have hcb : chooseBucket ty i = (3600, true) := by
      simp only [chooseBucket, hagg, if_true]
      rw [if_pos h1]
    simp only [getMetricsRouted, if_pos hty, hcb, if_true]
  · intro h1 h2
    have hcb : chooseBucket ty i = (300, true) := by
      simp only [chooseBucket, hagg, if_true]
      rw [if_neg (by omega), if_pos h1]
    simp only [getMetricsRouted, if_pos hty, hcb, if_true]
  · intro h1 h2
    have hcb : chooseBucket ty i = (60, true) := by
      simp only [chooseBucket, hagg, if_true]
      rw [if_neg (by omega), if_neg (by omega), if_pos h1]
    simp only [getMetricsRouted, if_pos hty, hcb, if_true]
  · intro h1
    have hcb : chooseBucket ty i = (0, false) := by
      simp only [chooseBucket, hagg, if_true]
      rw [if_neg (by omega), if_neg (by omega), if_neg (by omega)]
    simp [getMetricsRouted, if_pos hty, hcb]
  · intro b hcb hempty
    simp [getMetricsRouted, if_pos hty, hcb, hempty]

/-- Witness for C4: with an aggregate table that returns an empty result,
a 600-second query routes to bucket 300 and falls back to the raw rows. -/
theorem c4_witness :
    getMetricsRouted
        (⟨fun _ _ _ _ => some [], fun _ _ _ _ => [42]⟩ : MetricReads Nat)
        "cpu" 0 1000 600
      = [42] :=
  ((c4_interval_routing (⟨fun _ _ _ _ => some [], fun _ _ _ _ => [42]⟩ : MetricReads Nat)
      "cpu" 0 1000 600 0 0 0 0 0 0
      (by decide)).2.2.2.2.1 300 (by decide) rfl).trans rfl

/-- C5 (code evaluation at the failing input).  Re-registering an existing
agent whose stored name is "old-name" with a register message carrying name
"new-name" leaves the stored name "old-name": `RegisterAgent` updates
hostname, OS, arch, version, status and lastSeenAt but never assigns
`Name` on the existing row, although the message carries one. -/
theorem c5_register_keeps_stored_name :
    (RegisterAgent
        (fun k => if k = "a1"
          then some { id := "a1", name := "old-name", hostname := "h0", ip := "ip0", os := "os0", arch := "arch0", version := "v0", status := 0, lastSeenAt := 1, createdAt := 2, updatedAt := 3 }
          else none)
        true "203.0.113.5"
        { id := "a1", name := "new-name", hostname := "h1", os := "os1", arch := "arch1", version := "v1" } 1000).map
      (fun p => (p.1.name, p.1.hostname, p.1.os, p.1.arch, p.1.version,
        p.1.status, p.1.lastSeenAt))
      = some ("old-name", "h1", "os1", "arch1", "v1", 1, 1000) := by
  rfl

/-- C6.  When `RegisterAgent` is called with an agentID whose row already
exists, the existing row is updated in place — the set of populated keys is
unchanged, so no second row appears for that agentID — and the row's
`createdAt` (and `name`) are unchanged by the re-registration. -/
theorem c6_reregister_updates_in_place (db : AgentDB) (info : AgentInfo)
    (ip : String) (now : Int) (a0 : Agent)
    (hid : ¬ info.id = "") (hex : db info.id = some a0) :
    ∃ a1 db1,
      RegisterAgent db true ip info now = some (a1, db1)
        ∧ a1.createdAt = a0.createdAt
        ∧ db1 info.id = some a1
        ∧ (∀ k, ¬ k = info.id → db1 k = db k)
        ∧ (∀ k, (db1 k).isSome = (db k).isSome) := by
  unfold RegisterAgent
  simp only [Bool.not_true, Bool.false_eq_true, if_false, hid, hex]
  refine ⟨_, _, rfl, rfl, ?_, ?_, ?_⟩
  · simp
  · intro k hk
    simp [hk]
  · intro k
    by_cases hk : k = info.id
    · subst hk
      simp [hex]
    · simp [hk]

/-- Witness for C6: a concrete re-registration updates in place and keeps
`createdAt = 2`. -/
theorem c6_witness :
    ∃ a1 db1,
      RegisterAgent
          (fun k => if k = "a1"
            then some { id := "a1", name := "n", hostname := "h0", ip := "ip0", os := "os0", arch := "arch0", version := "v0", status := 0, lastSeenAt := 1, createdAt := 2, updatedAt := 3 }
            else none)
          true "198.51.100.7"
          { id := "a1", name := "n2", hostname := "h2", os := "os2", arch := "arch2", version := "v2" } 99
        = some (a1, db1)
        ∧ a1.createdAt = 2
        ∧ db1 "a1" = some a1
        ∧ (∀ k, ¬ k = "a1" → db1 k
            = (fun k => if k = "a1"
              then some { id := "a1", name := "n", hostname := "h0", ip := "ip0", os := "os0", arch := "arch0", version := "v0", status := 0, lastSeenAt := 1, createdAt := 2, updatedAt := 3 }
              else none) k)
        ∧ (∀ k, (db1 k).isSome
            = ((fun k => if k = "a1"
              then some ({ id := "a1", name := "n", hostname := "h0", ip := "ip0", os := "os0", arch := "arch0", version := "v0", status := 0, lastSeenAt := 1, createdAt := 2, updatedAt := 3 } : Agent)
              else none) k).isSome) :=
  c6_reregister_updates_in_place
    (fun k => if k = "a1" then some { id := "a1", name := "n", hostname := "h0", ip := "ip0", os := "os0", arch := "arch0", version := "v0", status := 0, lastSeenAt := 1, createdAt := 2, updatedAt := 3 } else none)
    { id := "a1", name := "n2", hostname := "h2", os := "os2", arch := "arch2", version := "v2" }
    "198.51.100.7" 99
    { id := "a1", name := "n", hostname := "h0", ip := "ip0", os := "os0", arch := "arch0", version := "v0", status := 0, lastSeenAt := 1, createdAt := 2, updatedAt := 3 }
    (by decide) rfl

theorem saveLoop_eq_filter (saveOk : MetricRow → Bool) (l : List MetricRow) :
    saveLoop saveOk l = l.filter saveOk := by
  induction l with
  | nil => rfl
  | cons r rs ih => simp only [saveLoop, List.filter_cons, ih]

theorem handleMetricData_mem_timestamp (saveOk : MetricRow → Bool)
    (agentID : String) (now : Int) (data : MetricData) (r : MetricRow)
    (hr : r ∈ (HandleMetricData saveOk agentID now data).1) :
    (rowIsMonitor r = false → rowTimestamp r = now)
    ∧ (rowIsMonitor r = true → ∃ d ∈ monitorElems data, rowTimestamp r = d.checkedAt) := by
  cases data with
  | cpu d =>
    simp only [HandleMetricData, saveLoop_eq_filter] at hr
    rw [List.mem_filter] at hr
    simp only [List.mem_singleton] at hr
    obtain ⟨rfl, -⟩ := hr
    exact ⟨fun _ => rfl, fun hmon => by simp [rowIsMonitor] at hmon⟩
  | memory d =>
    simp only [HandleMetricData, saveLoop_eq_filter] at hr
    rw [List.mem_filter] at hr
    simp only [List.mem_singleton] at hr
    obtain ⟨rfl, -⟩ := hr
    exact ⟨fun _ => rfl, fun hmon => by simp [rowIsMonitor] at hmon⟩
  | networkConnection d =>
    simp only [HandleMetricData, saveLoop_eq_filter] at hr
    rw [List.mem_filter] at hr
    simp only [List.mem_singleton] at hr
    obtain ⟨rfl, -⟩ := hr
    exact ⟨fun _ => rfl, fun hmon => by simp [rowIsMonitor] at hmon⟩
  | host d =>
    simp only [HandleMetricData, saveLoop_eq_filter] at hr
    rw [List.mem_filter] at hr
    simp only [List.mem_singleton] at hr
    obtain ⟨rfl, -⟩ := hr
    exact ⟨fun _ => rfl, fun hmon => by simp [rowIsMonitor] at hmon⟩
  | disk ds =>
    simp only [HandleMetricData, saveLoop_eq_filter] at hr
    rw [List.mem_filter] at hr
    obtain ⟨hmem, -⟩ := hr
    obtain ⟨d, hd, rfl⟩ := List.mem_map.mp hmem
    exact ⟨fun _ => rfl, fun hmon => by simp [rowIsMonitor] at hmon⟩
  | network ds =>
    simp only [HandleMetricData, saveLoop_eq_filter] at hr
    rw [List.mem_filter] at hr
    obtain ⟨hmem, -⟩ := hr
    obtain ⟨d, hd, rfl⟩ := List.mem_map.mp hmem
    exact ⟨fun _ => rfl, fun hmon => by simp [rowIsMonitor] at hmon⟩
  | diskIo ds =>
    simp only [HandleMetricData, saveLoop_eq_filter] at hr
    rw [List.mem_filter] at hr
    obtain ⟨hmem, -⟩ := hr
    obtain ⟨d, hd, rfl⟩ := List.mem_map.mp hmem
    exact ⟨fun _ => rfl, fun hmon => by simp [rowIsMonitor] at hmon⟩
  | gpu ds =>
    simp only [HandleMetricData, saveLoop_eq_filter] at hr
    rw [List.mem_filter] at hr
    obtain ⟨hmem, -⟩ := hr
    obtain ⟨d, hd, rfl⟩ := List.mem_map.mp hmem
    exact ⟨fun _ => rfl, fun hmon => by simp [rowIsMonitor] at hmon⟩
  | temperature ds =>
    simp only [HandleMetricData, saveLoop_eq_filter] at hr
    rw [List.mem_filter] at hr
    obtain ⟨hmem, -⟩ := hr
    obtain ⟨d, hd, rfl⟩ := List.mem_map.mp hmem
    exact ⟨fun _ => rfl, fun hmon => by simp [rowIsMonitor] at hmon⟩
  | monitor ds =>
    simp only [HandleMetricData, saveLoop_eq_filter] at hr
    rw [List.mem_filter] at hr
    obtain ⟨hmem, -⟩ := hr
    obtain ⟨d, hd, rfl⟩ := List.mem_map.mp hmem
    refine ⟨fun hmon => by simp [rowIsMonitor] at hmon, fun _ => ⟨d, ?_, rfl⟩⟩
    simpa [monitorElems] using hd
  | unknownKind =>
    simp [HandleMetricData] at hr

/-- C7.  Every row a metric frame persists carries the server clock `now` as
its timestamp, except synthetic-monitor rows, whose timestamp is the
probe-supplied `checkedAt` of the corresponding frame element. -/
theorem c7_server_clock_except_monitor (saveOk : MetricRow → Bool)
    (agentID : String) (now : Int) (data : MetricData) :
    (∀ r ∈ (HandleMetricData saveOk agentID now data).1,
        rowIsMonitor r = false → rowTimestamp r = now)
    ∧ (∀ r ∈ (HandleMetricData saveOk agentID now data).1,
        rowIsMonitor r = true →
          ∃ d ∈ monitorElems data, rowTimestamp r = d.checkedAt) :=
  ⟨fun r hr => (handleMetricData_mem_timestamp saveOk agentID now data r hr).1,
    fun r hr => (handleMetricData_mem_timestamp saveOk agentID now data r hr).2⟩

/-- Witness for C7: a CPU row gets the server clock 5; a monitor row gets
the element's `checkedAt = 77`. -/
theorem c7_witness :
    rowTimestamp (MetricRow.cpu "a" ⟨10, 4, 2, "m"⟩ 5) = 5
    ∧ ∃ d ∈ monitorElems (MetricData.monitor
          [⟨"m1", "https", "t", "up", 200, 12, "", "", "", 0, 30, 77⟩]),
        rowTimestamp (MetricRow.monitor "a"
          ⟨"m1", "https", "t", "up", 200, 12, "", "", "", 0, 30, 77⟩ 77) = d.checkedAt :=
  ⟨(c7_server_clock_except_monitor (fun _ => true) "a" 5
      (MetricData.cpu ⟨10, 4, 2, "m"⟩)).1
      (MetricRow.cpu "a" ⟨10, 4, 2, "m"⟩ 5) (by decide) (by decide),
    (c7_server_clock_except_monitor (fun _ => true) "a" 5
      (MetricData.monitor [⟨"m1", "https", "t", "up", 200, 12, "", "", "", 0, 30, 77⟩])).2
      (MetricRow.monitor "a" ⟨"m1", "https", "t", "up", 200, 12, "", "", "", 0, 30, 77⟩ 77)
      (by decide) (by decide)⟩

/-- C8.  For every metric frame of an array-carrying kind (disk, network,
disk I/O, GPU, temperature, synthetic monitor), one row is attempted per
array element; an element whose save fails is skipped while the remaining
elements are still written, and the frame returns no error regardless of
per-element failures. -/
theorem c8_array_kinds_skip_element_failures (saveOk : MetricRow → Bool)
    (agentID : String) (now : Int) :
    (∀ ds, HandleMetricData saveOk agentID now (.disk ds)
        = ((ds.map fun d => MetricRow.disk agentID d now).filter saveOk, true))
    ∧ (∀ ds, HandleMetricData saveOk agentID now (.network ds)
        = ((ds.map fun d => MetricRow.network agentID d now).filter saveOk, true))
    ∧ (∀ ds, HandleMetricData saveOk agentID now (.diskIo ds)
        = ((ds.map fun d => MetricRow.diskIo agentID d now).filter saveOk, true))
    ∧ (∀ ds, HandleMetricData saveOk agentID now (.gpu ds)
        = ((ds.map fun d => MetricRow.gpu agentID d now).filter saveOk, true))
    ∧ (∀ ds, HandleMetricData saveOk agentID now (.temperature ds)
        = ((ds.map fun d => MetricRow.temperature agentID d now).filter saveOk, true))
    ∧ (∀ ds, HandleMetricData saveOk agentID now (.monitor ds)
        = ((ds.map fun d => MetricRow.monitor agentID d d.checkedAt).filter saveOk, true)) := by
  refine ⟨?_, ?_, ?_, ?_, ?_, ?_⟩ <;> intro ds <;>
    simp only [HandleMetricData, saveLoop_eq_filter]

/-- C9.  Property writes invalidate the read cache: after a successful
`Set(id, name, value)`, `Get(id)` returns the property whose `Value` is the
JSON encoding of the value just written — never a stale cached entry from
before the write (the starting state `st` is arbitrary, including one whose
cache holds an old entry for `id`). -/
theorem c9_set_invalidates_cache {V : Type} (enc : V → String) (st : PropState)
    (id name : String) (v : V) (now : Int) :
    ((propertyGet (propertySet enc st id name v now) id).1).map (fun p => p.value)
      = some (enc v) := by
  simp [propertyGet, propertySet]

theorem fixIntervalSeconds_spec (c : PublicIPConfig) :
    (fixIntervalSeconds c).intervalSeconds
        = (if c.intervalSeconds ≤ 0 then 300 else c.intervalSeconds)
    ∧ (fixIntervalSeconds c).ipv4Scope = c.ipv4Scope
    ∧ (fixIntervalSeconds c).ipv6Scope = c.ipv6Scope
    ∧ (fixIntervalSeconds c).ipv4APIs = c.ipv4APIs
    ∧ (fixIntervalSeconds c).ipv6APIs = c.ipv6APIs := by
  by_cases h : c.intervalSeconds ≤ 0 <;> simp [fixIntervalSeconds, h]

theorem fixIPv4ScopeEmpty_spec (c : PublicIPConfig) :
    (fixIPv4ScopeEmpty c).intervalSeconds = c.intervalSeconds
    ∧ (fixIPv4ScopeEmpty c).ipv4Scope = (if c.ipv4Scope = "" then "all" else c.ipv4Scope)
    ∧ (fixIPv4ScopeEmpty c).ipv6Scope = c.ipv6Scope
    ∧ (fixIPv4ScopeEmpty c).ipv4APIs = c.ipv4APIs
    ∧ (fixIPv4ScopeEmpty c).ipv6APIs = c.ipv6APIs := by
  by_cases h : c.ipv4Scope = "" <;> simp [fixIPv4ScopeEmpty, h]

theorem fixIPv6ScopeEmpty_spec (c : PublicIPConfig) :
    (fixIPv6ScopeEmpty c).intervalSeconds = c.intervalSeconds
    ∧ (fixIPv6ScopeEmpty c).ipv4Scope = c.ipv4Scope
    ∧ (fixIPv6ScopeEmpty c).ipv6Scope = (if c.ipv6Scope = "" then "all" else c.ipv6Scope)
    ∧ (fixIPv6ScopeEmpty c).ipv4APIs = c.ipv4APIs
    ∧ (fixIPv6ScopeEmpty c).ipv6APIs = c.ipv6APIs := by
  by_cases h : c.ipv6Scope = "" <;> simp [fixIPv6ScopeEmpty, h]

theorem fixIPv4ScopeInvalid_spec (c : PublicIPConfig) :
    (fixIPv4ScopeInvalid c).intervalSeconds = c.intervalSeconds
    ∧ (fixIPv4ScopeInvalid c).ipv4Scope
        = (if c.ipv4Scope = "all" ∨ c.ipv4Scope = "custom" then c.ipv4Scope else "all")
    ∧ (fixIPv4ScopeInvalid c).ipv6Scope = c.ipv6Scope
    ∧ (fixIPv4ScopeInvalid c).ipv4APIs = c.ipv4APIs
    ∧ (fixIPv4ScopeInvalid c).ipv6APIs = c.ipv6APIs := by
  by_cases h1 : c.ipv4Scope = "all" <;> by_cases h2 : c.ipv4Scope = "custom" <;>
    simp [fixIPv4ScopeInvalid, h1, h2]

theorem fixIPv6ScopeInvalid_spec (c : PublicIPConfig) :
    (fixIPv6ScopeInvalid c).intervalSeconds = c.intervalSeconds
    ∧ (fixIPv6ScopeInvalid c).ipv4Scope = c.ipv4Scope
    ∧ (fixIPv6ScopeInvalid c).ipv6Scope
        = (if c.ipv6Scope = "all" ∨ c.ipv6Scope = "custom" then c.ipv6Scope else "all")
    ∧ (fixIPv6ScopeInvalid c).ipv4APIs = c.ipv4APIs
    ∧ (fixIPv6ScopeInvalid c).ipv6APIs = c.ipv6APIs := by
  by_cases h1 : c.ipv6Scope = "all" <;> by_cases h2 : c.ipv6Scope = "custom" <;>
    simp [fixIPv6ScopeInvalid, h1, h2]

theorem fixIPv4APIs_spec (c : PublicIPConfig) :
    (fixIPv4APIs c).intervalSeconds = c.intervalSeconds
    ∧ (fixIPv4APIs c).ipv4Scope = c.ipv4Scope
    ∧ (fixIPv4APIs c).ipv6Scope = c.ipv6Scope
    ∧ (fixIPv4APIs c).ipv4APIs
        = (if c.ipv4APIs = [] then defaultPublicIPv4APIs else c.ipv4APIs)
    ∧ (fixIPv4APIs c).ipv6APIs = c.ipv6APIs := by
  by_cases h : c.ipv4APIs = [] <;> simp [fixIPv4APIs, h, List.length_eq_zero]

theorem fixIPv6APIs_spec (c : PublicIPConfig) :
    (fixIPv6APIs c).intervalSeconds = c.intervalSeconds
    ∧ (fixIPv6APIs c).ipv4Scope = c.ipv4Scope
    ∧ (fixIPv6APIs c).ipv6Scope = c.ipv6Scope
    ∧ (fixIPv6APIs c).ipv4APIs = c.ipv4APIs
    ∧ (fixIPv6APIs c).ipv6APIs
        = (if c.ipv6APIs = [] then defaultPublicIPv6APIs else c.ipv6APIs) := by
  by_cases h : c.ipv6APIs = [] <;> simp [fixIPv6APIs, h, List.length_eq_zero]

theorem scope_norm (x : String) :
    (if (if x = "" then "all" else x) = "all" ∨ (if x = "" then "all" else x) = "custom"
      then (if x = "" then "all" else x) else "all")
    = (if x = "all" ∨ x = "custom" then x else "all") := by
  by_cases h0 : x = ""
  · subst h0
    decide
  · simp [h0]

/-- Field-wise characterization of `applyPublicIPConfigDefaults`. -/
theorem applyPublicIPConfigDefaults_fields (c : PublicIPConfig) :
    (applyPublicIPConfigDefaults c).intervalSeconds
        = (if c.intervalSeconds ≤ 0 then 300 else c.intervalSeconds)
    ∧ (applyPublicIPConfigDefaults c).ipv4Scope
        = (if c.ipv4Scope = "all" ∨ c.ipv4Scope = "custom" then c.ipv4Scope else "all")
    ∧ (applyPublicIPConfigDefaults c).ipv6Scope
        = (if c.ipv6Scope = "all" ∨ c.ipv6Scope = "custom" then c.ipv6Scope else "all")
    ∧ (applyPublicIPConfigDefaults c).ipv4APIs
        = (if c.ipv4APIs = [] then defaultPublicIPv4APIs else c.ipv4APIs)
    ∧ (applyPublicIPConfigDefaults c).ipv6APIs
        = (if c.ipv6APIs = [] then defaultPublicIPv6APIs else c.ipv6APIs) := by
  have s1 := fixIntervalSeconds_spec c
  have s2 := fixIPv4ScopeEmpty_spec (fixIntervalSeconds c)
  have s3 := fixIPv6ScopeEmpty_spec (fixIPv4ScopeEmpty (fixIntervalSeconds c))
  have s4 := fixIPv4ScopeInvalid_spec
    (fixIPv6ScopeEmpty (fixIPv4ScopeEmpty (fixIntervalSeconds c)))
  have s5 := fixIPv6ScopeInvalid_spec
    (fixIPv4ScopeInvalid (fixIPv6ScopeEmpty (fixIPv4ScopeEmpty (fixIntervalSeconds c))))
  have s6 := fixIPv4APIs_spec
    (fixIPv6ScopeInvalid (fixIPv4ScopeInvalid
      (fixIPv6ScopeEmpty (fixIPv4ScopeEmpty (fixIntervalSeconds c)))))
  have s7 := fixIPv6APIs_spec
    (fixIPv4APIs (fixIPv6ScopeInvalid (fixIPv4ScopeInvalid
      (fixIPv6ScopeEmpty (fixIPv4ScopeEmpty (fixIntervalSeconds c))))))
  unfold applyPublicIPConfigDefaults
  refine ⟨?_, ?_, ?_, ?_, ?_⟩
  · rw [s7.1, s6.1, s5.1, s4.1, s3.1, s2.1]
    exact s1.1
  · rw [s7.2.1, s6.2.1, s5.2.1, s4.2.1, s3.2.1, s2.2.1, s1.2.1]
    exact scope_norm c.ipv4Scope
  · rw [s7.2.2.1, s6.2.2.1, s5.2.2.1, s4.2.2.1, s3.2.2.1, s2.2.2.1, s1.2.2.1]
    exact scope_norm c.ipv6Scope
  · rw [s7.2.2.2.1, s6.2.2.2.1, s5.2.2.2.1, s4.2.2.2.1, s3.2.2.2.1, s2.2.2.2.1, s1.2.2.2.1]
  · rw [s7.2.2.2.2, s6.2.2.2.2, s5.2.2.2.2, s4.2.2.2.2, s3.2.2.2.2, s2.2.2.2.2, s1.2.2.2.2]

/-- C10.  Whenever `GetPublicIPConfig` returns without error, the returned
configuration is normalized: `IntervalSeconds` is positive (300 when the
stored value is ≤ 0), each scope is "all" or "custom" (anything else
becomes "all"), and both API lists are non-empty (the built-in defaults when
the stored lists are empty). -/
theorem c10_publicip_config_normalized (loaded : Option PublicIPConfig)
    (c : PublicIPConfig) (h : GetPublicIPConfig loaded = some c) :
    0 < c.intervalSeconds
    ∧ (c.ipv4Scope = "all" ∨ c.ipv4Scope = "custom")
    ∧ (c.ipv6Scope = "all" ∨ c.ipv6Scope = "custom")
    ∧ c.ipv4APIs ≠ []
    ∧ c.ipv6APIs ≠ []
    ∧ (∀ c0, loaded = some c0 →
        (c0.intervalSeconds ≤ 0 → c.intervalSeconds = 300)
        ∧ (¬ (c0.ipv4Scope = "all" ∨ c0.ipv4Scope = "custom") → c.ipv4Scope = "all")
        ∧ (¬ (c0.ipv6Scope = "all" ∨ c0.ipv6Scope = "custom") → c.ipv6Scope = "all")
        ∧ (c0.ipv4APIs = [] → c.ipv4APIs = defaultPublicIPv4APIs)
        ∧ (c0.ipv6APIs = [] → c.ipv6APIs = defaultPublicIPv6APIs)) := by
  cases loaded with
  | none => simp [GetPublicIPConfig] at h
  | some c0 =>
    simp only [GetPublicIPConfig, Option.some.injEq] at h
    subst h
    obtain ⟨hInt, h4s, h6s, h4a, h6a⟩ := applyPublicIPConfigDefaults_fields c0
    refine ⟨?_, ?_, ?_, ?_, ?_, ?_⟩
    · rw [hInt]
      split_ifs with hc <;> omega
    · rw [h4s]
      split_ifs with hc
      · exact hc
      · left; rfl
    · rw [h6s]
      split_ifs with hc
      · exact hc
      · left; rfl
    · rw [h4a]
      split_ifs with hc
      · simp [defaultPublicIPv4APIs]
      · exact hc
    · rw [h6a]
      split_ifs with hc
      · simp [defaultPublicIPv6APIs]
      · exact hc
    · intro c1 hc1
      injection hc1 with he
      subst he
      refine ⟨?_, ?_, ?_, ?_, ?_⟩
      · intro hle
        rw [hInt, if_pos hle]
      · intro hnot
        rw [h4s, if_neg hnot]
      · intro hnot
        rw [h6s, if_neg hnot]
      · intro hemp
        rw [h4a, if_pos hemp]
      · intro hemp
        rw [h6a, if_pos hemp]

/-- Witness for C10: a stored config with interval 0, an invalid IPv4 scope,
an empty IPv6 scope and empty API lists is fully normalized. -/
theorem c10_witness :
    0 < (applyPublicIPConfigDefaults ⟨true, 0, "weird", [], "", [], true, true, [], []⟩).intervalSeconds
    ∧ ((applyPublicIPConfigDefaults ⟨true, 0, "weird", [], "", [], true, true, [], []⟩).ipv4Scope = "all"
        ∨ (applyPublicIPConfigDefaults ⟨true, 0, "weird", [], "", [], true, true, [], []⟩).ipv4Scope = "custom")
    ∧ ((applyPublicIPConfigDefaults ⟨true, 0, "weird", [], "", [], true, true, [], []⟩).ipv6Scope = "all"
        ∨ (applyPublicIPConfigDefaults ⟨true, 0, "weird", [], "", [], true, true, [], []⟩).ipv6Scope = "custom")
    ∧ (applyPublicIPConfigDefaults ⟨true, 0, "weird", [], "", [], true, true, [], []⟩).ipv4APIs ≠ []
    ∧ (applyPublicIPConfigDefaults ⟨true, 0, "weird", [], "", [], true, true, [], []⟩).ipv6APIs ≠ []
    ∧ (∀ c0, (some (⟨true, 0, "weird", [], "", [], true, true, [], []⟩ : PublicIPConfig)
          : Option PublicIPConfig) = some c0 →
        (c0.intervalSeconds ≤ 0 →
          (applyPublicIPConfigDefaults ⟨true, 0, "weird", [], "", [], true, true, [], []⟩).intervalSeconds = 300)
        ∧ (¬ (c0.ipv4Scope = "all" ∨ c0.ipv4Scope = "custom") →
          (applyPublicIPConfigDefaults ⟨true, 0, "weird", [], "", [], true, true, [], []⟩).ipv4Scope = "all")
        ∧ (¬ (c0.ipv6Scope = "all" ∨ c0.ipv6Scope = "custom") →
          (applyPublicIPConfigDefaults ⟨true, 0, "weird", [], "", [], true, true, [], []⟩).ipv6Scope = "all")
        ∧ (c0.ipv4APIs = [] →
          (applyPublicIPConfigDefaults ⟨true, 0, "weird", [], "", [], true, true, [], []⟩).ipv4APIs
            = defaultPublicIPv4APIs)
        ∧ (c0.ipv6APIs = [] →
          (applyPublicIPConfigDefaults ⟨true, 0, "weird", [], "", [], true, true, [], []⟩).ipv6APIs
            = defaultPublicIPv6APIs)) :=
  c10_publicip_config_normalized
    (some ⟨true, 0, "weird", [], "", [], true, true, [], []⟩)
    (applyPublicIPConfigDefaults ⟨true, 0, "weird", [], "", [], true, true, [], []⟩)
    rfl

end Pika
